import Mathlib

/-!
Verification of the Hugging Face chat-completions proxy server
(`index.js` / `server.js`): a shallow embedding in Lean 4 of the
`POST /v1/chat/completions` handler — credential and message validation,
model alias resolution, outbound payload construction, the upstream error
branch, the non-streaming branch, the pass-through relay branch, and the
simulated word-by-word streaming branch — together with theorems checking
the specified properties against that embedding.
-/

namespace HFProxy

/-- JavaScript runtime values, as far as the handler inspects them:
the JSON scalar and composite values plus `undefined` (which property
lookups can produce). Numbers are modelled as rationals. -/
inductive JsValue where
  | undefined : JsValue
  | null : JsValue
  | bool (b : Bool) : JsValue
  | num (q : Rat) : JsValue
  | str (s : String) : JsValue
  | arr (xs : List JsValue) : JsValue
  | obj (fields : List (String × JsValue)) : JsValue

/-- Field lookup in an object field list: first binding wins, `undefined`
when the key is absent (JS semantics for plain data objects). -/
def lookupField : List (String × JsValue) → String → JsValue
  | [], _ => .undefined
  | (k, v) :: rest, key => if k = key then v else lookupField rest key

/-- JS nullish test (`undefined` or `null`), the guard of optional chaining. -/
def isNullish : JsValue → Bool
  | .undefined => true
  | .null => true
  | _ => false

/-- JS truthiness of a value. -/
def jsTruthy : JsValue → Bool
  | .undefined => false
  | .null => false
  | .bool b => b
  | .num q => q != 0
  | .str s => s != ""
  | .arr _ => true
  | .obj _ => true

/-- Property access `v.k` on a non-nullish receiver: objects look up the
field, other values yield `undefined` (no own properties named here). -/
def getPropTotal : JsValue → String → JsValue
  | .obj fs, k => lookupField fs k
  | _, _ => .undefined

/-- Plain property access `v.k`: throws a TypeError on `undefined`/`null`. -/
def getProp (v : JsValue) (k : String) : Except String JsValue :=
  match v with
  | .undefined => .error "Cannot read properties of undefined"
  | .null => .error "Cannot read properties of null"
  | _ => .ok (getPropTotal v k)

/-- Index access `v[i]`: throws on `undefined`/`null`; arrays yield the
element or `undefined`, strings yield the one-character string, other
values yield `undefined`. -/
def getIndex (v : JsValue) (i : Nat) : Except String JsValue :=
  match v with
  | .undefined => .error "Cannot read properties of undefined"
  | .null => .error "Cannot read properties of null"
  | .arr xs => .ok ((xs.get? i).getD .undefined)
  | .str s => .ok (match s.data.get? i with
      | some c => .str (String.singleton c)
      | none => .undefined)
  | _ => .ok (getPropTotal v (toString i))

/-- Optional chaining `v?.k`: `undefined` on a nullish receiver, plain
access otherwise (which then cannot throw). -/
def optChain (v : JsValue) (k : String) : JsValue :=
  if isNullish v then .undefined else getPropTotal v k

/-- `content.split(' ')` — JS split on the one-character separator,
keeping empty pieces; the empty string yields one empty piece. -/
def splitSpaces : List Char → List String
  | [] => [""]
  | c :: rest =>
    match splitSpaces rest with
    | [] => [""]
    | w :: ws => if c = ' ' then "" :: w :: ws else (String.singleton c ++ w) :: ws

def splitWords (s : String) : List String := splitSpaces s.data

/-- One inbound chat message; the handler forwards messages opaquely. -/
structure ChatMessage where
  role : String
  content : String
deriving DecidableEq

/-- The inbound `messages` field as the handler can see it: absent,
present but not an array, or an array of messages. -/
inductive MessagesField where
  | missing : MessagesField
  | notArray : MessagesField
  | array (ms : List ChatMessage) : MessagesField

/-- The destructured inbound request body. Numeric sampling parameters are
`Option Rat` (`none` = absent); `stream` and `model` are modelled after
their truthiness tests in the handler. -/
structure ChatRequest where
  messages : MessagesField
  temperature : Option Rat
  max_tokens : Option Rat
  stream : Bool
  model : Option String
  top_p : Option Rat
  frequency_penalty : Option Rat
  presence_penalty : Option Rat

/-- `AVAILABLE_MODELS` — the static alias table, in source order. -/
def AVAILABLE_MODELS : List (String × String) :=
  [("llama-3.1-8b", "meta-llama/Llama-3.1-8B-Instruct:fireworks-ai"),
   ("llama-3.1-70b", "meta-llama/Llama-3.1-70B-Instruct:fireworks-ai"),
   ("mixtral-8x7b", "mistralai/Mixtral-8x7B-Instruct-v0.1:fireworks-ai"),
   ("qwen-2.5-72b", "Qwen/Qwen2.5-72B-Instruct:fireworks-ai"),
   ("hermes-3", "NousResearch/Hermes-3-Llama-3.1-8B:fireworks-ai")]

/-- Process configuration: `HF_TOKEN` (absent when the variable is unset)
and `DEFAULT_MODEL` (already resolved from `HF_MODEL` or the literal). -/
structure Env where
  hfToken : Option String
  defaultModel : String

/-- `!HF_TOKEN` — the credential is usable when present and non-empty. -/
def tokenTruthy : Option String → Bool
  | none => false
  | some t => t != ""

/-- The `messages` validation `!messages || !Array.isArray(messages) ||
messages.length === 0`: returns the message list exactly when it passes. -/
def messagesOk : MessagesField → Option (List ChatMessage)
  | .array (m :: ms) => some (m :: ms)
  | _ => none

/-- Model resolution: `let selectedModel = DEFAULT_MODEL; if (model)
selectedModel = AVAILABLE_MODELS[model] || model;`. -/
def resolveModel (defaultModel : String) (model : Option String) : String :=
  match model with
  | none => defaultModel
  | some m => if m = "" then defaultModel else (AVAILABLE_MODELS.lookup m).getD m

/-- `x || d` on an optional number: the default replaces both absence and
falsy values (0). -/
def jsOrNum (v : Option Rat) (d : Rat) : Rat :=
  match v with
  | none => d
  | some x => if x = 0 then d else x

/-- `...(x && { x })` — the field is spread into the payload only when
present and truthy; 0 is dropped exactly like absence. -/
def truthySpread (v : Option Rat) : Option Rat :=
  match v with
  | none => none
  | some x => if x = 0 then none else some x

/-- The outbound `requestBody` sent to the upstream router. -/
structure OutboundPayload where
  model : String
  messages : List ChatMessage
  temperature : Rat
  max_tokens : Rat
  stream : Bool
  top_p : Option Rat
  frequency_penalty : Option Rat
  presence_penalty : Option Rat

/-- The `requestBody` object literal of the handler. -/
def buildRequestBody (selectedModel : String) (ms : List ChatMessage)
    (req : ChatRequest) : OutboundPayload :=
  { model := selectedModel
    messages := ms
    temperature := jsOrNum req.temperature (7 / 10)
    max_tokens := jsOrNum req.max_tokens 1000
    stream := req.stream
    top_p := truthySpread req.top_p
    frequency_penalty := truthySpread req.frequency_penalty
    presence_penalty := truthySpread req.presence_penalty }

/-- One event of the upstream live byte stream (`response.body`):
a data chunk, a normal end, or a stream error. -/
inductive RelayEvent where
  | data (chunk : String) : RelayEvent
  | streamEnd : RelayEvent
  | streamErr (msg : String) : RelayEvent
deriving DecidableEq

/-- The upstream reply as the handler observes it: status, declared
content type, the body read as text, the body parsed as JSON (`none` when
`response.json()` would throw), and the body as a live event stream. -/
structure UpstreamReply where
  status : Nat
  contentType : String
  rawText : String
  jsonParse : Option JsValue
  events : List RelayEvent

/-- `response.ok` — status in the 2xx range. -/
def responseOk (s : Nat) : Bool := 200 ≤ s && s ≤ 299

/-- `haystack.includes(needle)` on strings. -/
def includesStr (hay needle : String) : Bool :=
  (List.range (hay.data.length + 1)).any
    (fun i => (hay.data.drop i).take needle.data.length == needle.data)

/-- The content-type test selecting pass-through relay mode. -/
def streamingContentType (ct : String) : Bool :=
  includesStr ct "text/plain" || includesStr ct "text/event-stream"

/-- One emitted chat-completion chunk, restricted to the fields the
properties speak about (`id` and `created` are timestamp-derived and
opaque to every claim). `deltaContent = none` models the empty `delta`. -/
structure Chunk where
  model : String
  deltaContent : Option String
  finishReason : Option String
deriving DecidableEq

/-- One write on the client connection in streaming mode: a serialized
chunk record, or the literal terminating record `data: [DONE]` + two
newlines. -/
inductive StreamWrite where
  | chunk (c : Chunk) : StreamWrite
  | done : StreamWrite
deriving DecidableEq

/-- `data.choices[0]?.message?.content || "Sin respuesta"`, then the
implicit requirement of `content.split(' ')` that the value be a string.
Errors are the thrown TypeErrors (caught by the streaming catch block). -/
def simulatedContent (data : JsValue) : Except String String := do
  let choices ← getProp data "choices"
  let c0 ← getIndex choices 0
  let contentVal := optChain (optChain c0 "message") "content"
  let chosen := if jsTruthy contentVal then contentVal else .str "Sin respuesta"
  match chosen with
  | .str s => .ok s
  | _ => .error "content.split is not a function"

/-- The chunk the simulated loop builds at index `i`: the last index
carries an empty delta and `finish_reason: "stop"`; index 0 carries the
bare word; later non-final indices carry a leading space plus the word. -/
def chunkAt (model : String) (words : List String) (i : Nat) : Chunk :=
  if i = words.length - 1 then
    { model := model, deltaContent := none, finishReason := some "stop" }
  else
    { model := model
      deltaContent := some (if i = 0 then words.getD 0 "" else " " ++ words.getD i "")
      finishReason := none }

/-- The full simulated chunk sequence: one chunk per word index. -/
def simulatedChunks (model : String) (words : List String) : List Chunk :=
  (List.range words.length).map (chunkAt model words)

/-- The error chunk of the streaming catch block. -/
def errorChunk (model : String) (msg : String) : Chunk :=
  { model := model, deltaContent := some ("Error: " ++ msg), finishReason := some "error" }

/-- The writes of the streaming catch block: the error chunk then the
terminating sentinel. -/
def errorTail (model : String) (msg : String) : List StreamWrite :=
  [.chunk (errorChunk model msg), .done]

/-- The writes of the simulated loop, with fault injection: `wf = some
(k, msg)` means the k-th chunk write (0-based, `k` within the loop range)
throws with message `msg`, so the writes are the first `k` chunks, then
the error chunk of the catch block and the sentinel. Without a fault all chunks
are written, then the sentinel. -/
def simulatedEmission (model : String) (words : List String)
    (wf : Option (Nat × String)) : List StreamWrite :=
  match wf with
  | some (k, msg) =>
    if k < words.length then
      (List.range k).map (fun i => .chunk (chunkAt model words i)) ++ errorTail model msg
    else (simulatedChunks model words).map .chunk ++ [.done]
  | none => (simulatedChunks model words).map .chunk ++ [.done]

/-- The simulated-streaming branch: `await response.json()` (throwing
into the catch when unparsable), content extraction (throwing into the
catch on a malformed body), then the word loop. The catch messages stand
in for the runtime-dependent JS error text. -/
def simulatedBranch (model : String) (reply : UpstreamReply)
    (wf : Option (Nat × String)) : List StreamWrite :=
  match reply.jsonParse with
  | none => errorTail model "Unexpected end of JSON input"
  | some data =>
    match simulatedContent data with
    | .error msg => errorTail model msg
    | .ok content => simulatedEmission model (splitWords content) wf

/-- The client writes of the relay: `res.write(chunk)` for each data event
until the source ends or errors (neither handler writes anything). -/
def relayWrites : List RelayEvent → List String
  | [] => []
  | .data c :: rest => c :: relayWrites rest
  | .streamEnd :: _ => []
  | .streamErr _ :: _ => []

/-- Whether the relay closes the client connection (`res.end()` runs on
both the end event and the error event). -/
def relayEnded : List RelayEvent → Bool
  | [] => false
  | .data _ :: rest => relayEnded rest
  | .streamEnd :: _ => true
  | .streamErr _ :: _ => true

/-- The response the handler produces: a JSON response with a status, a
simulated stream of writes, or a pass-through relay (its raw writes and
whether the connection was closed). -/
inductive HandlerResult where
  | jsonResponse (status : Nat) (body : JsValue) : HandlerResult
  | streamResponse (writes : List StreamWrite) : HandlerResult
  | relayResponse (written : List String) (closed : Bool) : HandlerResult

/-- The observable outcome of one handler run: the client-visible result,
how many upstream fetches were performed, and the payload sent (if any). -/
structure HandlerTrace where
  result : HandlerResult
  upstreamCalls : Nat
  sentPayload : Option OutboundPayload

/-- Body of the 401 response (missing credential). -/
def err401Body : JsValue :=
  .obj [("error", .str "Token de Hugging Face no encontrado"),
        ("details", .str "Configura HF_TOKEN en tu .env")]

/-- Body of the 400 response (invalid messages). -/
def err400Body : JsValue :=
  .obj [("error", .str "Mensajes requeridos"),
        ("details", .str "El campo \x27messages\x27 debe ser un array no vacío")]

/-- Body of the non-2xx forwarding response: fixed message, the raw
upstream body text verbatim as `details`, and the upstream status. -/
def upstreamErrBody (status : Nat) (body : String) : JsValue :=
  .obj [("error", .str "Error desde Hugging Face"),
        ("details", .str body),
        ("status", .num (status : Rat))]

/-- Body of the outer 500 catch. -/
def serverErrBody (msg : String) : JsValue :=
  .obj [("error", .str "Error en el servidor"), ("details", .str msg)]

/-- The `POST /v1/chat/completions` handler. `reply` is the upstream
reply the single fetch would observe; `wf` is the simulated-loop write
fault injection. Returns the client-visible result, the number of
upstream calls made, and the payload sent. -/
def postChatCompletions (env : Env) (req : ChatRequest) (reply : UpstreamReply)
    (wf : Option (Nat × String)) : HandlerTrace :=
  if tokenTruthy env.hfToken then
    match messagesOk req.messages with
    | none => { result := .jsonResponse 400 err400Body, upstreamCalls := 0, sentPayload := none }
    | some ms =>
      let selectedModel := resolveModel env.defaultModel req.model
      let payload := buildRequestBody selectedModel ms req
      let afterFetch : HandlerResult :=
        if responseOk reply.status then
          if req.stream then
            if streamingContentType reply.contentType then
              .relayResponse (relayWrites reply.events) (relayEnded reply.events)
            else
              .streamResponse (simulatedBranch selectedModel reply wf)
          else
            match reply.jsonParse with
            | some d => .jsonResponse 200 d
            | none => .jsonResponse 500 (serverErrBody "Unexpected end of JSON input")
        else
          .jsonResponse reply.status (upstreamErrBody reply.status reply.rawText)
      { result := afterFetch, upstreamCalls := 1, sentPayload := some payload }
  else
    { result := .jsonResponse 401 err401Body, upstreamCalls := 0, sentPayload := none }

/-- Concatenation of the delta contents of the non-terminal chunks of a
write sequence, in emission order. -/
def concatDeltas (ws : List StreamWrite) : String :=
  ws.foldl (fun acc w =>
    match w with
    | .chunk c => if c.finishReason.isSome then acc else acc ++ c.deltaContent.getD ""
    | .done => acc) ""

/-- Shape of a valid terminal chunk: finish reason stop with an empty
delta, or finish reason error carrying a fault description. -/
def terminalShape (t : Chunk) : Prop :=
  (t.finishReason = some "stop" ∧ t.deltaContent = none) ∨
  (t.finishReason = some "error" ∧ ∃ m, t.deltaContent = some ("Error: " ++ m))

/-- A write that is a chunk with no finish reason (not terminal, not the
sentinel). -/
def nonTerminalWrite (w : StreamWrite) : Prop :=
  ∃ c, w = .chunk c ∧ c.finishReason = none

/-- A write sequence ends properly: all writes are non-terminal chunks
except the final two, which are exactly one well-shaped terminal chunk
immediately followed by the termination sentinel. -/
def endsProperly (e : List StreamWrite) : Prop :=
  ∃ pre t, e = pre ++ [.chunk t, .done] ∧
    (∀ w ∈ pre, nonTerminalWrite w) ∧ terminalShape t

theorem splitSpaces_ne_nil (l : List Char) : splitSpaces l ≠ [] := by
  match l with
  | [] => simp [splitSpaces]
  | c :: rest =>
    unfold splitSpaces
    match h : splitSpaces rest with
    | [] => simp
    | w :: ws => by_cases hc : c = ' ' <;> simp [hc]

theorem splitWords_ne_nil (s : String) : splitWords s ≠ [] :=
  splitSpaces_ne_nil s.data

theorem chunkAt_finishReason_of_lt (model : String) (words : List String) (i : Nat)
    (h : i < words.length - 1) : (chunkAt model words i).finishReason = none := by
  unfold chunkAt
  rw [if_neg (by omega)]

theorem chunkAt_last (model : String) (words : List String) :
    chunkAt model words (words.length - 1) =
      { model := model, deltaContent := none, finishReason := some "stop" } := by
  unfold chunkAt
  rw [if_pos rfl]

theorem errorTail_endsProperly (model msg : String) :
    endsProperly (errorTail model msg) := by
  refine ⟨[], errorChunk model msg, rfl, by simp, Or.inr ⟨rfl, msg, rfl⟩⟩

theorem simulatedFull_endsProperly (model : String) (words : List String)
    (h : words ≠ []) :
    endsProperly ((simulatedChunks model words).map .chunk ++ [.done]) := by
  have hn : 0 < words.length := List.length_pos.mpr h
  obtain ⟨m, hm⟩ : ∃ m, words.length = m + 1 := ⟨words.length - 1, by omega⟩
  refine ⟨(List.range m).map (fun i => StreamWrite.chunk (chunkAt model words i)),
    chunkAt model words m, ?_, ?_, ?_⟩
  · simp only [simulatedChunks, hm, List.range_succ, List.map_append, List.map_map,
      List.append_assoc, List.map_cons, List.map_nil, Function.comp]
    rfl
  · intro w hw
    simp only [List.mem_map, List.mem_range] at hw
    obtain ⟨i, hi, rfl⟩ := hw
    exact ⟨_, rfl, chunkAt_finishReason_of_lt _ _ _ (by omega)⟩
  · have hlast : m = words.length - 1 := by omega
    rw [hlast, chunkAt_last]
    exact Or.inl ⟨rfl, rfl⟩

theorem simulatedEmission_endsProperly (model : String) (words : List String)
    (h : words ≠ []) (wf : Option (Nat × String)) :
    endsProperly (simulatedEmission model words wf) := by
  match wf with
  | none => exact simulatedFull_endsProperly model words h
  | some (k, msg) =>
    by_cases hk : k < words.length
    · refine ⟨(List.range k).map (fun i => StreamWrite.chunk (chunkAt model words i)),
        errorChunk model msg, ?_, ?_, Or.inr ⟨rfl, msg, rfl⟩⟩
      · simp [simulatedEmission, hk, errorTail]
      · intro w hw
        simp only [List.mem_map, List.mem_range] at hw
        obtain ⟨i, hi, rfl⟩ := hw
        exact ⟨_, rfl, chunkAt_finishReason_of_lt _ _ _ (by omega)⟩
    · have : simulatedEmission model words (some (k, msg)) =
          (simulatedChunks model words).map .chunk ++ [.done] := by
        simp [simulatedEmission, hk]
      rw [this]
      exact simulatedFull_endsProperly model words h

theorem simulatedBranch_endsProperly (model : String) (reply : UpstreamReply)
    (wf : Option (Nat × String)) : endsProperly (simulatedBranch model reply wf) := by
  rcases hp : reply.jsonParse with _ | data
  · simp only [simulatedBranch, hp]
    exact errorTail_endsProperly model _
  · rcases hc : simulatedContent data with msg | content
    · simp only [simulatedBranch, hp, hc]
      exact errorTail_endsProperly model msg
    · simp only [simulatedBranch, hp, hc]
      exact simulatedEmission_endsProperly model _ (splitWords_ne_nil content) wf

theorem relayWrites_data_err (cs : List String) (m : String) :
    relayWrites (cs.map RelayEvent.data ++ [RelayEvent.streamErr m]) = cs := by
  induction cs with
  | nil => rfl
  | cons c rest ih => simpa [relayWrites] using ih

theorem relayEnded_data_err (cs : List String) (m : String) :
    relayEnded (cs.map RelayEvent.data ++ [RelayEvent.streamErr m]) = true := by
  induction cs with
  | nil => rfl
  | cons c rest ih => simpa [relayEnded] using ih

/-! Concrete sample inputs used by closed theorems and witnesses. -/

def envC : Env :=
  { hfToken := some "hf_dummy"
    defaultModel := "meta-llama/Llama-3.1-8B-Instruct:fireworks-ai" }

def envNoToken : Env :=
  { hfToken := none
    defaultModel := "meta-llama/Llama-3.1-8B-Instruct:fireworks-ai" }

def reqHiThere : ChatRequest :=
  { messages := .array [{ role := "user", content := "Hi there" }]
    temperature := none, max_tokens := none, stream := true, model := none
    top_p := none, frequency_penalty := none, presence_penalty := none }

def reqNoStream : ChatRequest :=
  { messages := .array [{ role := "user", content := "Hi there" }]
    temperature := none, max_tokens := none, stream := false, model := none
    top_p := none, frequency_penalty := none, presence_penalty := none }

def reqAlias : ChatRequest :=
  { messages := .array [{ role := "user", content := "Hi" }]
    temperature := none, max_tokens := none, stream := false
    model := some "llama-3.1-70b"
    top_p := none, frequency_penalty := none, presence_penalty := none }

def reqUnknownModel : ChatRequest :=
  { messages := .array [{ role := "user", content := "Hi" }]
    temperature := none, max_tokens := none, stream := false
    model := some "my-custom-model"
    top_p := none, frequency_penalty := none, presence_penalty := none }

def reqSampling : ChatRequest :=
  { messages := .array [{ role := "user", content := "Hi" }]
    temperature := none, max_tokens := none, stream := false, model := none
    top_p := some 0, frequency_penalty := some (1 / 2), presence_penalty := none }

def reqEmptyMessages : ChatRequest :=
  { messages := .array []
    temperature := none, max_tokens := none, stream := false, model := none
    top_p := none, frequency_penalty := none, presence_penalty := none }

/-- The upstream body with choices[0].message.content = Hello friend. -/
def bodyHelloFriend : JsValue :=
  .obj [("choices", .arr [.obj [("message", .obj [("content", .str "Hello friend")])]])]

/-- A 200 non-streaming upstream reply carrying that body. -/
def replyHelloFriend : UpstreamReply :=
  { status := 200, contentType := "application/json", rawText := ""
    jsonParse := some bodyHelloFriend, events := [] }

/-- A 201 upstream reply, still in the 2xx range. -/
def reply201 : UpstreamReply :=
  { status := 201, contentType := "application/json", rawText := ""
    jsonParse := some bodyHelloFriend, events := [] }

/-- A 429 upstream failure with a raw text body. -/
def reply429 : UpstreamReply :=
  { status := 429, contentType := "application/json", rawText := "Rate limit exceeded"
    jsonParse := none, events := [] }

/-- A 200 upstream reply that is a live event stream ending in an error. -/
def replyStreamErr : UpstreamReply :=
  { status := 200, contentType := "text/event-stream", rawText := ""
    jsonParse := none
    events := [.data "data: x\n\n", .data "data: y\n\n", .streamErr "socket hang up"] }

/-! The claim theorems. -/

/-- C1, behavior of the code at the failing input: with stream true and
the upstream non-streaming body whose answer text is "Hello friend", the
handler emits exactly ONE content chunk ("Hello"), then the terminal
chunk with empty delta, then the sentinel. The concatenation of the
non-terminal delta contents is "Hello", not "Hello friend": the loop
turns the chunk of the LAST word into the terminal chunk with an empty
delta, so the final whitespace-segmented token of every answer is never
emitted and the claimed round-trip fails (the claim expected two content
chunks, "Hello" and space-"friend"). -/
theorem c1_last_word_dropped :
    (postChatCompletions envC reqHiThere replyHelloFriend none).result =
      .streamResponse
        [.chunk { model := "meta-llama/Llama-3.1-8B-Instruct:fireworks-ai"
                  deltaContent := some "Hello", finishReason := none },
         .chunk { model := "meta-llama/Llama-3.1-8B-Instruct:fireworks-ai"
                  deltaContent := none, finishReason := some "stop" },
         .done] ∧
    concatDeltas (simulatedBranch "meta-llama/Llama-3.1-8B-Instruct:fireworks-ai"
      replyHelloFriend none) = "Hello" ∧
    ("Hello" : String) ≠ "Hello friend" :=
  ⟨rfl, rfl, by decide⟩

/-- C2: every simulated-mode emission (stream requested, upstream 2xx
with a non-streaming content type) consists of non-terminal content
chunks followed by exactly one terminal chunk — finish reason stop with
empty delta, or finish reason error carrying the fault description —
immediately followed by the DONE sentinel, in every case including a
parse failure, a malformed body, and a mid-emission write fault. -/
theorem c2_single_terminal_then_done (env : Env) (req : ChatRequest)
    (reply : UpstreamReply) (wf : Option (Nat × String)) (ms : List ChatMessage)
    (htok : tokenTruthy env.hfToken = true)
    (hms : messagesOk req.messages = some ms)
    (hstream : req.stream = true)
    (hok : responseOk reply.status = true)
    (hct : streamingContentType reply.contentType = false) :
    ∃ e, (postChatCompletions env req reply wf).result = .streamResponse e ∧
      endsProperly e := by
  refine ⟨simulatedBranch (resolveModel env.defaultModel req.model) reply wf, ?_,
    simulatedBranch_endsProperly _ _ _⟩
  simp [postChatCompletions, htok, hms, hstream, hok, hct]

theorem c2_witness :
    ∃ e, (postChatCompletions envC reqHiThere replyHelloFriend none).result =
        .streamResponse e ∧ endsProperly e :=
  c2_single_terminal_then_done envC reqHiThere replyHelloFriend none
    [{ role := "user", content := "Hi there" }] rfl rfl rfl rfl rfl

/-- C3, counterexample: the upstream reply has status 201 (a 2xx), but
the client receives status 200 — the non-streaming branch calls the
JSON responder without setting a status, so the framework default 200 is
sent, not the upstream status. The claim as stated (same status code as
the upstream reply) is false at this input. -/
theorem c3_status_counterexample :
    reply201.status = 201 ∧
    (postChatCompletions envC reqNoStream reply201 none).result =
      .jsonResponse 200 bodyHelloFriend ∧
    (200 : Nat) ≠ 201 :=
  ⟨rfl, rfl, by decide⟩

/-- C3, amended: for every valid request with stream false whose upstream
call returns a 2xx reply with a parsable JSON body, the client receives
the upstream JSON body exactly, unchanged, with status 200 (the framework
default) — which coincides with the upstream status only when the
upstream replied 200. -/
theorem c3_body_forwarded_status_200 (env : Env) (req : ChatRequest)
    (reply : UpstreamReply) (ms : List ChatMessage) (body : JsValue)
    (htok : tokenTruthy env.hfToken = true)
    (hms : messagesOk req.messages = some ms)
    (hstream : req.stream = false)
    (hok : responseOk reply.status = true)
    (hp : reply.jsonParse = some body) :
    (postChatCompletions env req reply none).result = .jsonResponse 200 body := by
  simp [postChatCompletions, htok, hms, hstream, hok, hp]

theorem c3_witness :
    (postChatCompletions envC reqNoStream replyHelloFriend none).result =
      .jsonResponse 200 bodyHelloFriend :=
  c3_body_forwarded_status_200 envC reqNoStream replyHelloFriend
    [{ role := "user", content := "Hi there" }] bodyHelloFriend rfl rfl rfl rfl rfl

/-- C4: for every validated request whose upstream call returns a non-2xx
status S with raw body B, the client receives status S and the body with
the fixed message, the raw upstream text B verbatim as details, and S as
status; exactly one upstream call is made (never retried). -/
theorem c4_upstream_failure_forwarded (env : Env) (req : ChatRequest)
    (reply : UpstreamReply) (wf : Option (Nat × String)) (ms : List ChatMessage)
    (htok : tokenTruthy env.hfToken = true)
    (hms : messagesOk req.messages = some ms)
    (hbad : responseOk reply.status = false) :
    (postChatCompletions env req reply wf).result =
      .jsonResponse reply.status (upstreamErrBody reply.status reply.rawText) ∧
    (postChatCompletions env req reply wf).upstreamCalls = 1 := by
  constructor <;> simp [postChatCompletions, htok, hms, hbad]

theorem c4_witness :
    (postChatCompletions envC reqNoStream reply429 none).result =
      .jsonResponse 429 (upstreamErrBody 429 "Rate limit exceeded") ∧
    (postChatCompletions envC reqNoStream reply429 none).upstreamCalls = 1 :=
  c4_upstream_failure_forwarded envC reqNoStream reply429 none
    [{ role := "user", content := "Hi there" }] rfl rfl rfl

/-- C5: in the payload actually sent upstream, the model field is the
mapped value of the alias table when the request model is a key of the
table, the request string unchanged when it is a non-empty string absent
from the table, and the process default when the model is omitted. -/
theorem c5_model_resolution (env : Env) (req : ChatRequest)
    (reply : UpstreamReply) (wf : Option (Nat × String)) (ms : List ChatMessage)
    (htok : tokenTruthy env.hfToken = true)
    (hms : messagesOk req.messages = some ms) :
    ∃ p, (postChatCompletions env req reply wf).sentPayload = some p ∧
      (∀ a v, req.model = some a → AVAILABLE_MODELS.lookup a = some v → p.model = v) ∧
      (∀ s, req.model = some s → s ≠ "" → AVAILABLE_MODELS.lookup s = none → p.model = s) ∧
      (req.model = none → p.model = env.defaultModel) := by
  refine ⟨buildRequestBody (resolveModel env.defaultModel req.model) ms req, ?_, ?_, ?_, ?_⟩
  · simp [postChatCompletions, htok, hms]
  · intro a v ha hv
    by_cases h0 : a = ""
    · rw [h0] at hv
      have hnone : AVAILABLE_MODELS.lookup "" = none := rfl
      rw [hnone] at hv
      exact absurd hv (by simp)
    · simp [buildRequestBody, resolveModel, ha, h0, hv]
  · intro s hs hne hnone
    simp [buildRequestBody, resolveModel, hs, hne, hnone]
  · intro h
    simp [buildRequestBody, resolveModel, h]

theorem c5_witness :
    (∃ p, (postChatCompletions envC reqAlias replyHelloFriend none).sentPayload = some p ∧
       p.model = "meta-llama/Llama-3.1-70B-Instruct:fireworks-ai") ∧
    (∃ p, (postChatCompletions envC reqUnknownModel replyHelloFriend none).sentPayload = some p ∧
       p.model = "my-custom-model") ∧
    (∃ p, (postChatCompletions envC reqNoStream replyHelloFriend none).sentPayload = some p ∧
       p.model = envC.defaultModel) := by
  refine ⟨?_, ?_, ?_⟩
  · obtain ⟨p, hp, h1, _, _⟩ := c5_model_resolution envC reqAlias replyHelloFriend none
      [{ role := "user", content := "Hi" }] rfl rfl
    exact ⟨p, hp, h1 "llama-3.1-70b" _ rfl rfl⟩
  · obtain ⟨p, hp, _, h2, _⟩ := c5_model_resolution envC reqUnknownModel replyHelloFriend none
      [{ role := "user", content := "Hi" }] rfl rfl
    exact ⟨p, hp, h2 "my-custom-model" rfl (by decide) rfl⟩
  · obtain ⟨p, hp, _, _, h3⟩ := c5_model_resolution envC reqNoStream replyHelloFriend none
      [{ role := "user", content := "Hi there" }] rfl rfl
    exact ⟨p, hp, h3 rfl⟩

/-- C6: in the payload actually sent upstream, temperature is 7/10 when
absent and max tokens is 1000 when absent, while each of top p, frequency
penalty and presence penalty is present exactly when its inbound value is
present and nonzero (an inbound 0 is dropped like absence), carried over
unchanged when kept. -/
theorem c6_payload_construction (env : Env) (req : ChatRequest)
    (reply : UpstreamReply) (wf : Option (Nat × String)) (ms : List ChatMessage)
    (htok : tokenTruthy env.hfToken = true)
    (hms : messagesOk req.messages = some ms) :
    ∃ p, (postChatCompletions env req reply wf).sentPayload = some p ∧
      (req.temperature = none → p.temperature = 7 / 10) ∧
      (req.max_tokens = none → p.max_tokens = 1000) ∧
      (∀ v, req.top_p = some v → v ≠ 0 → p.top_p = some v) ∧
      (req.top_p = none ∨ req.top_p = some 0 → p.top_p = none) ∧
      (∀ v, req.frequency_penalty = some v → v ≠ 0 → p.frequency_penalty = some v) ∧
      (req.frequency_penalty = none ∨ req.frequency_penalty = some 0 →
        p.frequency_penalty = none) ∧
      (∀ v, req.presence_penalty = some v → v ≠ 0 → p.presence_penalty = some v) ∧
      (req.presence_penalty = none ∨ req.presence_penalty = some 0 →
        p.presence_penalty = none) := by
  refine ⟨buildRequestBody (resolveModel env.defaultModel req.model) ms req, ?_,
    ?_, ?_, ?_, ?_, ?_, ?_, ?_, ?_⟩
  · simp [postChatCompletions, htok, hms]
  · intro h; simp [buildRequestBody, jsOrNum, h]
  · intro h; simp [buildRequestBody, jsOrNum, h]
  · intro v hv hne; simp [buildRequestBody, truthySpread, hv, hne]
  · rintro (h | h) <;> simp [buildRequestBody, truthySpread, h]
  · intro v hv hne; simp [buildRequestBody, truthySpread, hv, hne]
  · rintro (h | h) <;> simp [buildRequestBody, truthySpread, h]
  · intro v hv hne; simp [buildRequestBody, truthySpread, hv, hne]
  · rintro (h | h) <;> simp [buildRequestBody, truthySpread, h]

theorem c6_witness :
    ∃ p, (postChatCompletions envC reqSampling replyHelloFriend none).sentPayload = some p ∧
      p.temperature = 7 / 10 ∧ p.max_tokens = 1000 ∧ p.top_p = none ∧
      p.frequency_penalty = some (1 / 2) ∧ p.presence_penalty = none := by
  obtain ⟨p, hp, h1, h2, _, h4, h5, _, _, h8⟩ :=
    c6_payload_construction envC reqSampling replyHelloFriend none
      [{ role := "user", content := "Hi" }] rfl rfl
  exact ⟨p, hp, h1 rfl, h2 rfl, h4 (Or.inr rfl), h5 (1 / 2) rfl (by norm_num), h8 (Or.inl rfl)⟩

/-- C7: with a configured credential, every request whose messages field
is missing, not an array, or empty is answered with status 400 and the
invalid-messages body, and no upstream call is made. -/
theorem c7_invalid_messages_no_call (env : Env) (req : ChatRequest)
    (reply : UpstreamReply) (wf : Option (Nat × String))
    (htok : tokenTruthy env.hfToken = true)
    (hms : messagesOk req.messages = none) :
    (postChatCompletions env req reply wf).result = .jsonResponse 400 err400Body ∧
    (postChatCompletions env req reply wf).upstreamCalls = 0 := by
  constructor <;> simp [postChatCompletions, htok, hms]

theorem c7_witness :
    (postChatCompletions envC reqEmptyMessages replyHelloFriend none).result =
      .jsonResponse 400 err400Body ∧
    (postChatCompletions envC reqEmptyMessages replyHelloFriend none).upstreamCalls = 0 :=
  c7_invalid_messages_no_call envC reqEmptyMessages replyHelloFriend none rfl rfl

/-- Shared helper: with no usable credential the handler returns the 401
response and performs no upstream call, whatever the request. -/
theorem unauthorized_trace (env : Env) (req : ChatRequest)
    (reply : UpstreamReply) (wf : Option (Nat × String))
    (h : tokenTruthy env.hfToken = false) :
    postChatCompletions env req reply wf =
      { result := .jsonResponse 401 err401Body, upstreamCalls := 0, sentPayload := none } := by
  simp [postChatCompletions, h]

/-- C8: for every request handled while no upstream credential is
configured, the result is status 401 with the missing-token body and no
upstream call is made — the credential check precedes any network access. -/
theorem c8_missing_token_no_call (env : Env) (req : ChatRequest)
    (reply : UpstreamReply) (wf : Option (Nat × String))
    (h : tokenTruthy env.hfToken = false) :
    (postChatCompletions env req reply wf).result = .jsonResponse 401 err401Body ∧
    (postChatCompletions env req reply wf).upstreamCalls = 0 := by
  rw [unauthorized_trace env req reply wf h]
  exact ⟨rfl, rfl⟩

theorem c8_witness :
    (postChatCompletions envNoToken reqHiThere replyHelloFriend none).result =
      .jsonResponse 401 err401Body ∧
    (postChatCompletions envNoToken reqHiThere replyHelloFriend none).upstreamCalls = 0 :=
  c8_missing_token_no_call envNoToken reqHiThere replyHelloFriend none rfl

/-- C9: in pass-through mode (stream requested, upstream 2xx with a
streaming content type), when the upstream source emits data chunks and
then reports an error, the client receives exactly those chunks,
verbatim and in arrival order with nothing added by the relay — in
particular no DONE sentinel — and the connection is closed. -/
theorem c9_relay_error_abrupt_close (env : Env) (req : ChatRequest)
    (reply : UpstreamReply) (wf : Option (Nat × String)) (ms : List ChatMessage)
    (cs : List String) (m : String)
    (htok : tokenTruthy env.hfToken = true)
    (hms : messagesOk req.messages = some ms)
    (hstream : req.stream = true)
    (hok : responseOk reply.status = true)
    (hct : streamingContentType reply.contentType = true)
    (hev : reply.events = cs.map RelayEvent.data ++ [RelayEvent.streamErr m]) :
    (postChatCompletions env req reply wf).result = .relayResponse cs true := by
  simp [postChatCompletions, htok, hms, hstream, hok, hct, hev,
    relayWrites_data_err, relayEnded_data_err]

theorem c9_witness :
    (postChatCompletions envC reqHiThere replyStreamErr none).result =
      .relayResponse ["data: x\n\n", "data: y\n\n"] true :=
  c9_relay_error_abrupt_close envC reqHiThere replyStreamErr none
    [{ role := "user", content := "Hi there" }]
    ["data: x\n\n", "data: y\n\n"] "socket hang up" rfl rfl rfl rfl rfl rfl

/-- C10: the credential check is evaluated before the messages
validation — when both the credential is missing and the messages field
is invalid, the result is the 401 response, not the 400 response. -/
theorem c10_token_checked_first (env : Env) (req : ChatRequest)
    (reply : UpstreamReply) (wf : Option (Nat × String))
    (h : tokenTruthy env.hfToken = false)
    (hms : messagesOk req.messages = none) :
    (postChatCompletions env req reply wf).result = .jsonResponse 401 err401Body ∧
    (postChatCompletions env req reply wf).result ≠ .jsonResponse 400 err400Body := by
  rw [unauthorized_trace env req reply wf h]
  refine ⟨rfl, fun hc => ?_⟩
  injection hc with h1 h2
  exact absurd h1 (by decide)

theorem c10_witness :
    (postChatCompletions envNoToken reqEmptyMessages replyHelloFriend none).result =
      .jsonResponse 401 err401Body ∧
    (postChatCompletions envNoToken reqEmptyMessages replyHelloFriend none).result ≠
      .jsonResponse 400 err400Body :=
  c10_token_checked_first envNoToken reqEmptyMessages replyHelloFriend none rfl rfl

end HFProxy
